import Mathlib

/-!
Shallow embedding of scrapy_playwright/handler.py
(ScrapyPlaywrightDownloadHandler) together with proofs about its
specified behaviour.

Modelling conventions:
- Python byte strings become List Nat (each entry < 256 in intended use).
- Python text (str) becomes String.  Rendered page text coming out of a
  browser contains no lone surrogates, which matches the Lean String
  type (sequences of Unicode scalar values); on such text the strict
  Python UTF-8 codec is total.
- Scrapy Headers objects are case-insensitive maps; they become
  association lists with case-insensitive lookup.
- The external collaborators from w3lib
  (http_content_type_encoding, html_body_declared_encoding) and the
  Python codec registry (str.encode / bytes.decode) are parameters of
  the embedded functions: the handler code treats them as opaque.
  A codec application returning none models a UnicodeEncodeError,
  which is the only exception _encode_body catches.
-/

/-- Scrapy Headers modelled as an association list of name/value pairs. -/
abbrev HeadersMap := List (String × String)

/-- ASCII lowercasing of one character. -/
def lowerChar (c : Char) : Char :=
  if 65 ≤ c.toNat ∧ c.toNat ≤ 90 then Char.ofNat (c.toNat + 32) else c

/-- ASCII lowercasing of a string (header names are ASCII). -/
def lowerString (s : String) : String :=
  String.mk (s.data.map lowerChar)

/-- Case-insensitive header lookup, as Scrapy Headers.get performs. -/
def headerGet (hs : HeadersMap) (k : String) : Option String :=
  (hs.find? (fun p => lowerString p.fst == lowerString k)).map Prod.snd

/-- Case-insensitive header removal, as Headers.pop performs. -/
def headerPop (hs : HeadersMap) (k : String) : HeadersMap :=
  hs.filter (fun p => lowerString p.fst != lowerString k)

/-- Standard UTF-8 encoding of one Unicode scalar value. -/
def utf8EncodeChar (c : Char) : List Nat :=
  let n := c.toNat
  if n < 0x80 then [n]
  else if n < 0x800 then [0xC0 + n / 0x40, 0x80 + n % 0x40]
  else if n < 0x10000 then
    [0xE0 + n / 0x1000, 0x80 + (n / 0x40) % 0x40, 0x80 + n % 0x40]
  else
    [0xF0 + n / 0x40000, 0x80 + (n / 0x1000) % 0x40,
     0x80 + (n / 0x40) % 0x40, 0x80 + n % 0x40]

/-- UTF-8 encoding of a text.  Models text.encode of Python with the
strict utf-8 codec, which is total on surrogate-free text. -/
def utf8Encode (s : String) : List Nat :=
  (s.data.map utf8EncodeChar).flatten

/-- Embedding of _possible_encodings (handler.py lines 358-362): a
generator that yields the charset taken from the Content-Type header
(only when that header is present and non-empty, per Python truthiness
of the header value) followed by the encoding declared inside the body.
Either yield may be none. -/
def _possible_encodings (httpContentTypeEncoding : String → Option String)
    (htmlBodyDeclaredEncoding : String → Option String)
    (headers : HeadersMap) (text : String) : List (Option String) :=
  (match headerGet headers "content-type" with
   | some ct => if ct = "" then [] else [httpContentTypeEncoding ct]
   | none => []) ++ [htmlBodyDeclaredEncoding text]

/-- The loop of _encode_body: try each candidate codec in order; a
codec application returning none is a UnicodeEncodeError and the next
candidate is tried; when the candidates run out the utf-8 fallback is
returned.  codecs models str.encode: codec name and text to bytes. -/
def encodeAttempts (codecs : String → String → Option (List Nat))
    (text : String) : List String → List Nat × String
  | [] => (utf8Encode text, "utf-8")
  | e :: rest =>
    match codecs e text with
    | some body => (body, e)
    | none => encodeAttempts codecs text rest

/-- Embedding of _encode_body (handler.py lines 365-373): filter the
falsy candidates out of _possible_encodings, try the survivors in
order, fall back to utf-8. -/
def _encode_body (codecs : String → String → Option (List Nat))
    (httpContentTypeEncoding htmlBodyDeclaredEncoding : String → Option String)
    (headers : HeadersMap) (text : String) : List Nat × String :=
  encodeAttempts codecs text
    ((_possible_encodings httpContentTypeEncoding htmlBodyDeclaredEncoding
        headers text).filterMap id)

/-- Specification-side resolution order, written from the words of the
spec: first the charset of the Content-Type header, then the encoding
declared in the body, then the utf-8 fallback, first success winning,
where a candidate succeeds exactly when the codec encodes the text. -/
def specResolveEncoding (codecs : String → String → Option (List Nat))
    (httpContentTypeEncoding htmlBodyDeclaredEncoding : String → Option String)
    (headers : HeadersMap) (text : String) : List Nat × String :=
  let headerCandidate : Option String :=
    match headerGet headers "content-type" with
    | some ct => if ct = "" then none else httpContentTypeEncoding ct
    | none => none
  let tryCandidate : Option String → Option (List Nat × String) := fun oe =>
    match oe with
    | some e => (codecs e text).map (fun b => (b, e))
    | none => none
  match tryCandidate headerCandidate with
  | some r => r
  | none =>
    match tryCandidate (htmlBodyDeclaredEncoding text) with
    | some r => r
    | none => (utf8Encode text, "utf-8")

/-- Fuel-indexed UTF-8 decoder used by the concrete codec table below
(models bytes.decode with the utf-8 codec; none is a
UnicodeDecodeError). -/
def utf8DecodeAux : Nat → List Nat → Option (List Char)
  | _, [] => some []
  | 0, _ :: _ => none
  | fuel + 1, b :: bs =>
    if b < 0x80 then
      (utf8DecodeAux fuel bs).map (fun cs => Char.ofNat b :: cs)
    else if b < 0xE0 then
      match bs with
      | b2 :: rest =>
        if 0xC2 ≤ b ∧ 0x80 ≤ b2 ∧ b2 < 0xC0 then
          (utf8DecodeAux fuel rest).map
            (fun cs => Char.ofNat ((b - 0xC0) * 0x40 + (b2 - 0x80)) :: cs)
        else none
      | _ => none
    else if b < 0xF0 then
      match bs with
      | b2 :: b3 :: rest =>
        if 0xE0 ≤ b ∧ 0x80 ≤ b2 ∧ b2 < 0xC0 ∧ 0x80 ≤ b3 ∧ b3 < 0xC0 then
          (utf8DecodeAux fuel rest).map
            (fun cs =>
              Char.ofNat ((b - 0xE0) * 0x1000 + (b2 - 0x80) * 0x40 + (b3 - 0x80)) :: cs)
        else none
      | _ => none
    else
      match bs with
      | b2 :: b3 :: b4 :: rest =>
        if b < 0xF5 ∧ 0x80 ≤ b2 ∧ b2 < 0xC0 ∧ 0x80 ≤ b3 ∧ b3 < 0xC0 ∧ 0x80 ≤ b4 ∧ b4 < 0xC0 then
          (utf8DecodeAux fuel rest).map
            (fun cs =>
              Char.ofNat ((b - 0xF0) * 0x40000 + (b2 - 0x80) * 0x1000
                + (b3 - 0x80) * 0x40 + (b4 - 0x80)) :: cs)
        else none
      | _ => none

/-- UTF-8 decoding of a byte list. -/
def utf8Decode (bs : List Nat) : Option String :=
  (utf8DecodeAux bs.length bs).map (fun cs => String.mk cs)

/-- Concrete codec table modelling str.encode for the codecs exercised
by the witnesses: utf-8 (total on surrogate-free text), ascii
(code points below 128), iso-8859-1 (code points below 256).  Names
outside the table yield none; the candidate names actually reaching
_encode_body come from w3lib, which only returns known codec names. -/
def sampleCodecs (name : String) (text : String) : Option (List Nat) :=
  if name = "utf-8" then some (utf8Encode text)
  else if name = "ascii" then
    if text.data.all (fun c => c.toNat < 0x80) then some (text.data.map Char.toNat)
    else none
  else if name = "iso-8859-1" then
    if text.data.all (fun c => c.toNat < 0x100) then some (text.data.map Char.toNat)
    else none
  else none

/-- Concrete decoder table modelling bytes.decode for the same codecs. -/
def sampleDecode (name : String) (bs : List Nat) : Option String :=
  if name = "utf-8" then utf8Decode bs
  else if name = "ascii" then
    if bs.all (fun b => b < 0x80) then some (String.mk (bs.map Char.ofNat))
    else none
  else if name = "iso-8859-1" then
    if bs.all (fun b => b < 0x100) then some (String.mk (bs.map Char.ofNat))
    else none
  else none

/-- Whether the character list pat occurs as a contiguous sublist. -/
def listHasSub (pat : List Char) : List Char → Bool
  | [] => pat.isEmpty
  | c :: rest => List.isPrefixOf pat (c :: rest) || listHasSub pat rest

/-- Whether pat occurs as a substring of s. -/
def hasSubstring (s pat : String) : Bool :=
  listHasSub pat.data s.data

/-- Concrete stand-in for w3lib http_content_type_encoding, enough for
the witnesses: recognises three charset parameters. -/
def sampleHttpContentTypeEncoding (ct : String) : Option String :=
  if hasSubstring ct "charset=iso-8859-1" then some "iso-8859-1"
  else if hasSubstring ct "charset=utf-8" then some "utf-8"
  else if hasSubstring ct "charset=ascii" then some "ascii"
  else none

/-- Concrete stand-in for w3lib html_body_declared_encoding: recognises
a meta charset declaration for ascii inside the body text. -/
def sampleHtmlBodyDeclaredEncoding (text : String) : Option String :=
  if hasSubstring text "charset=ascii" then some "ascii" else none

/-!
Request interception (handler.py lines 329-355, _make_request_handler
and the _request_handler closure it returns).
-/

/-- The parts of a Playwright Request the handler inspects. -/
structure PwRequest where
  url : String
  is_navigation_request : Bool

/-- The keyword overrides passed to route.continue_ by the handler:
headers always, method and post_data only when set. -/
structure RouteOverrides where
  headers : HeadersMap
  method : Option String
  post_data : Option String
deriving DecidableEq

/-- The route action the handler performs for an intercepted request. -/
inductive RouteAction
  | abort
  | continue_ (overrides : RouteOverrides)
deriving DecidableEq

/-- The configuration captured by the _request_handler closure: the
handler attributes (abort_request predicate, process_request_headers,
browser_type) and the per-fetch arguments of _make_request_handler
(method, body, encoding).  decodeBody models bytes.decode with the
given codec name. -/
structure HandlerConfig where
  abort_request : Option (PwRequest → Bool)
  process_request_headers : String → PwRequest → HeadersMap → HeadersMap
  browser_type : String
  method : String
  body : Option (List Nat)
  encoding : String
  decodeBody : List Nat → String → String

/-- The mutable state the handler touches: the scrapy_headers object it
rewrites in place and the aborted-request counter of the stats
collaborator. -/
structure HandlerState where
  scrapy_headers : HeadersMap
  aborted_count : Nat
deriving DecidableEq

/-- Whether the configured abort predicate fires for this request
(false when no predicate is configured). -/
def abortsRequest (cfg : HandlerConfig) (req : PwRequest) : Bool :=
  match cfg.abort_request with
  | some p => p req
  | none => false

/-- Embedding of _request_handler (handler.py lines 332-353): abort and
count when the predicate fires; otherwise compute the processed
headers, replace the contents of scrapy_headers with them (clear then
update), and continue with the header override, adding method and
post_data overrides exactly for the top-level navigation request (the
post_data override only when a body was supplied). -/
def _request_handler (cfg : HandlerConfig) (st : HandlerState)
    (req : PwRequest) : RouteAction × HandlerState :=
  if abortsRequest cfg req then
    (RouteAction.abort, { st with aborted_count := st.aborted_count + 1 })
  else
    let processed := cfg.process_request_headers cfg.browser_type req st.scrapy_headers
    let overrides : RouteOverrides :=
      { headers := processed
        method := if req.is_navigation_request then some cfg.method else none
        post_data :=
          if req.is_navigation_request then
            cfg.body.map (fun b => cfg.decodeBody b cfg.encoding)
          else none }
    (RouteAction.continue_ overrides, { st with scrapy_headers := processed })

/-!
The error guard of _download_request (handler.py lines 223-231) and the
tail of _download_request_with_page (lines 233-269).
-/

/-- Page/stats state threaded through the guard around
_download_request_with_page. -/
structure DownloadTryState where
  pageClosed : Bool
  statsPagesClosed : Nat
deriving DecidableEq

/-- Embedding of the try/except in _download_request (lines 223-231):
on success the result is returned; on an exception the page is closed
unless it is already closed (incrementing the closed-pages counter) and
the same exception is re-raised. -/
def _download_request_guard (pipeline : Except String String)
    (st : DownloadTryState) : Except String String × DownloadTryState :=
  match pipeline with
  | Except.ok r => (Except.ok r, st)
  | Except.error e =>
    (Except.error e,
     if st.pageClosed then st
     else { pageClosed := true, statsPagesClosed := st.statsPagesClosed + 1 })

/-- The page-derived inputs of _download_request_with_page on the
success path: the navigation response status and headers, the rendered
content and the final page url. -/
structure FetchEnv where
  gotoStatus : Nat
  gotoHeaders : HeadersMap
  pageContent : String
  pageUrl : String

/-- The observable outcome of _download_request_with_page: page
disposal, the page handle stored back into request.meta, the
closed-pages counter, and the assembled response fields. -/
structure FetchOutcome where
  pageClosed : Bool
  metaPage : Bool
  statsPagesClosed : Nat
  respUrl : String
  respStatus : Nat
  respHeaders : HeadersMap
  respBody : List Nat
  respEncoding : String

/-- Embedding of _download_request_with_page (lines 233-269), success
path: read the rendered content; when playwright_include_page is set
leave the page open and store its handle in request.meta, otherwise
close it and count the closure; strip Content-Encoding from the
response headers; encode the body via _encode_body; assemble the
response from the page url, navigation status, stripped headers,
encoded body and chosen encoding. -/
def _download_request_with_page (codecs : String → String → Option (List Nat))
    (httpContentTypeEncoding htmlBodyDeclaredEncoding : String → Option String)
    (playwright_include_page : Bool) (env : FetchEnv)
    (statsPagesClosed : Nat) : FetchOutcome :=
  let body_str := env.pageContent
  let headers := headerPop env.gotoHeaders "Content-Encoding"
  let be := _encode_body codecs httpContentTypeEncoding htmlBodyDeclaredEncoding
      headers body_str
  { pageClosed := !playwright_include_page
    metaPage := playwright_include_page
    statsPagesClosed := if playwright_include_page then statsPagesClosed
                        else statsPagesClosed + 1
    respUrl := env.pageUrl
    respStatus := env.gotoStatus
    respHeaders := headers
    respBody := be.fst
    respEncoding := be.snd }

/-!
Scripted page methods (handler.py lines 271-296, _apply_page_methods).
-/

/-- Modelled from the spec: the PageMethod class lives in
scrapy_playwright/page.py, which is not part of the sources here.  Per
the spec a ScriptedAction is a named action with arguments and a result
slot filled after execution. -/
structure PageMethod where
  method : String
  args : List String
  result : Option String
deriving DecidableEq

/-- An element of the playwright_page_methods collection: either a
PageMethod or some other value (which the loop warns about and
skips). -/
inductive PMEntry
  | pm (p : PageMethod)
  | other
deriving DecidableEq

/-- The playwright_page_methods meta value: an ordered list, or a
mapping whose ordered values are used. -/
inductive PageMethodsInput
  | list (l : List PMEntry)
  | dict (d : List (String × PMEntry))

/-- The dict branch of _apply_page_methods: a mapping is replaced by
its ordered values. -/
def pageMethodsValues : PageMethodsInput → List PMEntry
  | PageMethodsInput.list l => l
  | PageMethodsInput.dict d => d.map Prod.snd

/-- One iteration of the _apply_page_methods loop on one entry, given
the capabilities of the page (getattr on the Page object: none models
AttributeError).  Returns the entry after the iteration together with
the number of warnings logged and of wait_for_load_state calls made:
an unresolvable method or a non-PageMethod value is warned about and
left unchanged; a resolvable method is invoked, its result stored in
the result slot, and the load state awaited. -/
def applyPageMethod (resolve : String → Option (List String → String)) :
    PMEntry → PMEntry × Nat × Nat
  | PMEntry.pm p =>
    match resolve p.method with
    | none => (PMEntry.pm p, 1, 0)
    | some f => (PMEntry.pm { p with result := some (f p.args) }, 0, 1)
  | PMEntry.other => (PMEntry.other, 1, 0)

/-- The for loop of _apply_page_methods over the ordered entries,
accumulating the processed entries, warning count and wait count. -/
def applyPageMethodsList (resolve : String → Option (List String → String)) :
    List PMEntry → List PMEntry × Nat × Nat
  | [] => ([], 0, 0)
  | e :: rest =>
    let r := applyPageMethod resolve e
    let rs := applyPageMethodsList resolve rest
    (r.fst :: rs.fst, r.snd.fst + rs.snd.fst, r.snd.snd + rs.snd.snd)

/-- Embedding of _apply_page_methods (lines 283-296): a dict input is
replaced by its ordered values, then every entry is processed in
order. -/
def _apply_page_methods (resolve : String → Option (List String → String))
    (input : PageMethodsInput) : List PMEntry × Nat × Nat :=
  applyPageMethodsList resolve (pageMethodsValues input)

/-- Whether the loop skips this entry with a warning (unresolvable
method name, or not a PageMethod at all). -/
def entrySkipped (resolve : String → Option (List String → String)) :
    PMEntry → Bool
  | PMEntry.pm p => (resolve p.method).isNone
  | PMEntry.other => true

/-!
Per-session concurrency gate (handler.py lines 135-166 _create_page,
lines 312-317 _make_close_page_callback).  One live session (browser
context) is modelled: its counting semaphore
(context_semaphores[name], created with value max_pages_per_context),
the number of its currently open pages, and the number of its crashed
pages that have not yet been closed.  _create_page awaits
semaphore.acquire() before context.new_page(), so page creation only
proceeds when the gate value is positive and decrements it.  Lines
159-160 register the same releasing callback for both the close and
the crash event of one page, and that callback (lines 312-317)
releases unconditionally whenever the semaphore is still registered.
A crashed page is not closed: page.is_closed() stays false, so the
error guard at lines 226-228 closes it, firing the close event after
the crash event already fired — both events run the releasing
callback for that single page.
-/

/-- State of one live session: current semaphore value, number of open
pages, and number of crashed pages not yet closed. -/
structure SessionState where
  sem : Nat
  openPages : Nat
  crashedPages : Nat
deriving DecidableEq

/-- Transitions of one session under the handler code: _create_page
(acquire then open, enabled only when the semaphore has capacity); the
close event of an open page (release); the crash event of an open page
(release, the page remaining unclosed since a crash does not close
it); and closing a crashed page — as the error guard at lines 226-228
does, because a crashed page is not is_closed() — which fires the
close event and so releases a second time for that page. -/
inductive SessionStep : SessionState → SessionState → Prop
  | createPage (s : SessionState) (h : 0 < s.sem) :
      SessionStep s ⟨s.sem - 1, s.openPages + 1, s.crashedPages⟩
  | closePage (s : SessionState) (h : 0 < s.openPages) :
      SessionStep s ⟨s.sem + 1, s.openPages - 1, s.crashedPages⟩
  | crashPage (s : SessionState) (h : 0 < s.openPages) :
      SessionStep s ⟨s.sem + 1, s.openPages - 1, s.crashedPages + 1⟩
  | closeCrashedPage (s : SessionState) (h : 0 < s.crashedPages) :
      SessionStep s ⟨s.sem + 1, s.openPages, s.crashedPages - 1⟩

/-- States reachable from the initial state of a session whose
semaphore was created with value cap and which has no pages. -/
inductive SessionReachable (cap : Nat) : SessionState → Prop
  | init : SessionReachable cap ⟨cap, 0, 0⟩
  | step {s t : SessionState} (hs : SessionReachable cap s)
      (hstep : SessionStep s t) : SessionReachable cap t

/-!
Theorems.
-/

/-- Helper: the try-in-order loop of _encode_body always returns a pair
whose encoding successfully encodes the text, provided the utf-8 codec
is total on the text (which holds for the strict Python utf-8 codec on
surrogate-free text). -/
theorem encodeAttempts_sound (codecs : String → String → Option (List Nat))
    (text : String) (hutf8 : codecs "utf-8" text = some (utf8Encode text)) :
    ∀ cands : List String,
      codecs (encodeAttempts codecs text cands).snd text
        = some (encodeAttempts codecs text cands).fst := by
  intro cands
  induction cands with
  | nil => simpa [encodeAttempts] using hutf8
  | cons e rest ih =>
    simp only [encodeAttempts]
    cases hc : codecs e text with
    | none => simpa [hc] using ih
    | some b => simp [hc]

/-- Claim C2: for every header map and page text, the encoding of the
assembled body is resolved with first success winning in the order
header charset, body-declared encoding, utf-8 fallback, a candidate
succeeding exactly when the codec encodes the text: _encode_body
coincides with the resolution order written from the spec. -/
theorem encode_body_refines_spec (codecs : String → String → Option (List Nat))
    (httpCT htmlDecl : String → Option String) (headers : HeadersMap)
    (text : String) :
    _encode_body codecs httpCT htmlDecl headers text
      = specResolveEncoding codecs httpCT htmlDecl headers text := by
  simp only [_encode_body, specResolveEncoding, _possible_encodings]
  cases h : headerGet headers "content-type" with
  | none =>
    cases hb : htmlDecl text with
    | none => simp [encodeAttempts, hb]
    | some e2 => cases hc2 : codecs e2 text <;> simp [encodeAttempts, hb, hc2]
  | some ct =>
    by_cases hct : ct = ""
    · subst hct
      simp only [if_pos rfl]
      cases hb : htmlDecl text with
      | none => simp [encodeAttempts, hb]
      | some e2 => cases hc2 : codecs e2 text <;> simp [encodeAttempts, hb, hc2]
    · simp only [if_neg hct]
      cases he : httpCT ct with
      | none =>
        cases hb : htmlDecl text with
        | none => simp [encodeAttempts, hb]
        | some e2 => cases hc2 : codecs e2 text <;> simp [encodeAttempts, hb, hc2]
      | some e1 =>
        cases hc1 : codecs e1 text with
        | some b1 => simp [encodeAttempts, hc1]
        | none =>
          cases hb : htmlDecl text with
          | none => simp [encodeAttempts, hb, hc1]
          | some e2 =>
            cases hc2 : codecs e2 text <;> simp [encodeAttempts, hb, hc1, hc2]

/-- Claim C7: response-body encoding never fails: for every header map
and page text, _encode_body returns a byte body together with an
encoding name under which the text does encode to exactly that body
(in particular the operation is total and the utf-8 fallback, total on
surrogate-free text, backstops every failing candidate). -/
theorem encode_body_never_fails (codecs : String → String → Option (List Nat))
    (httpCT htmlDecl : String → Option String) (headers : HeadersMap)
    (text : String) (hutf8 : ∀ t, codecs "utf-8" t = some (utf8Encode t)) :
    codecs (_encode_body codecs httpCT htmlDecl headers text).snd text
      = some (_encode_body codecs httpCT htmlDecl headers text).fst := by
  simpa [_encode_body] using
    encodeAttempts_sound codecs text (hutf8 text)
      ((_possible_encodings httpCT htmlDecl headers text).filterMap id)

/-- Witness for encode_body_never_fails at a concrete header map and
text, with the concrete codec table. -/
theorem encode_body_never_fails_witness :
    sampleCodecs "utf-8" "abc" = some (utf8Encode "abc") ∧
    sampleCodecs
        (_encode_body sampleCodecs sampleHttpContentTypeEncoding
          sampleHtmlBodyDeclaredEncoding
          [("Content-Type", "text/html; charset=iso-8859-1")] "abc").snd "abc"
      = some (_encode_body sampleCodecs sampleHttpContentTypeEncoding
          sampleHtmlBodyDeclaredEncoding
          [("Content-Type", "text/html; charset=iso-8859-1")] "abc").fst :=
  ⟨rfl,
   encode_body_never_fails sampleCodecs sampleHttpContentTypeEncoding
     sampleHtmlBodyDeclaredEncoding
     [("Content-Type", "text/html; charset=iso-8859-1")] "abc"
     (fun _ => rfl)⟩

/-- Claim C10: the pair returned by _encode_body satisfies body = text
encoded with the returned encoding; consequently, for a decoder that
inverts a successful encode on this pair, decoding the assembled body
with the reported encoding recovers the rendered text exactly. -/
theorem encode_body_roundtrip (codecs : String → String → Option (List Nat))
    (decodeC : String → List Nat → Option String)
    (httpCT htmlDecl : String → Option String) (headers : HeadersMap)
    (text : String) (b : List Nat) (e : String)
    (hres : _encode_body codecs httpCT htmlDecl headers text = (b, e))
    (hutf8 : ∀ t, codecs "utf-8" t = some (utf8Encode t))
    (hdec : codecs e text = some b → decodeC e b = some text) :
    codecs e text = some b ∧ decodeC e b = some text := by
  have h := encodeAttempts_sound codecs text (hutf8 text)
    ((_possible_encodings httpCT htmlDecl headers text).filterMap id)
  rw [show encodeAttempts codecs text
      ((_possible_encodings httpCT htmlDecl headers text).filterMap id) = (b, e) from hres]
    at h
  exact ⟨h, hdec h⟩

/-- Witness for encode_body_roundtrip: a Latin-1 page whose headers
declare charset iso-8859-1; the body is the Latin-1 bytes of the text
and decoding them recovers the text. -/
theorem encode_body_roundtrip_witness :
    sampleCodecs "iso-8859-1" "héllo" = some [104, 233, 108, 108, 111] ∧
    sampleDecode "iso-8859-1" [104, 233, 108, 108, 111] = some "héllo" :=
  encode_body_roundtrip sampleCodecs sampleDecode
    sampleHttpContentTypeEncoding sampleHtmlBodyDeclaredEncoding
    [("Content-Type", "text/html; charset=iso-8859-1")] "héllo"
    [104, 233, 108, 108, 111] "iso-8859-1"
    (by decide) (fun _ => rfl) (by decide)

/-- Concrete abort predicate for the witnesses: aborts a known
sub-resource url. -/
def sampleAbortPredicate (r : PwRequest) : Bool :=
  r.url == "http://example.com/ads.js"

/-- Concrete header processor for the witnesses: adds a header in
front of the outbound ones. -/
def sampleProcessHeaders (browser : String) (r : PwRequest)
    (hs : HeadersMap) : HeadersMap :=
  ("X-Engine", browser ++ "-" ++ r.url) :: hs

/-- Concrete handler configuration for the witnesses. -/
def sampleHandlerConfig : HandlerConfig :=
  { abort_request := some sampleAbortPredicate
    process_request_headers := sampleProcessHeaders
    browser_type := "chromium"
    method := "POST"
    body := some [104, 105]
    encoding := "utf-8"
    decodeBody := fun bs enc => (sampleDecode enc bs).getD "" }

/-- Concrete handler state for the witnesses. -/
def sampleHandlerState : HandlerState :=
  { scrapy_headers := [("User-Agent", "scrapy")], aborted_count := 3 }

/-- Concrete sub-resource request matching the abort predicate. -/
def sampleAbortedRequest : PwRequest :=
  { url := "http://example.com/ads.js", is_navigation_request := false }

/-- Concrete top-level navigation request, not matching the abort
predicate. -/
def sampleNavRequest : PwRequest :=
  { url := "http://example.com/", is_navigation_request := true }

/-- Claim C3: when the configured abort predicate returns true for an
intercepted request, the handler aborts the route and increments the
aborted counter, and nothing else happens for that request: the
outbound header object is left unmodified, no header, method or body
override is computed, and the request is not continued. -/
theorem abort_stops_processing (cfg : HandlerConfig) (st : HandlerState)
    (req : PwRequest) (p : PwRequest → Bool)
    (hp : cfg.abort_request = some p) (ht : p req = true) :
    _request_handler cfg st req =
      (RouteAction.abort,
       { scrapy_headers := st.scrapy_headers
         aborted_count := st.aborted_count + 1 }) := by
  simp [_request_handler, abortsRequest, hp, ht]

/-- Witness for abort_stops_processing at the concrete configuration
and aborted request. -/
theorem abort_stops_processing_witness :
    sampleHandlerConfig.abort_request = some sampleAbortPredicate ∧
    sampleAbortPredicate sampleAbortedRequest = true ∧
    _request_handler sampleHandlerConfig sampleHandlerState sampleAbortedRequest
      = (RouteAction.abort,
         { scrapy_headers := [("User-Agent", "scrapy")], aborted_count := 4 }) :=
  ⟨rfl, rfl,
   abort_stops_processing sampleHandlerConfig sampleHandlerState
     sampleAbortedRequest sampleAbortPredicate rfl rfl⟩

/-- Claim C5: a non-aborted intercepted request is continued with the
processed headers; exactly when it is the top-level navigation request
its method is additionally overridden with the original fetch method
and, only when an original body was supplied, its payload is
overridden with the body decoded using the caller-specified encoding;
a non-navigation request receives only the header override. -/
theorem continue_with_overrides (cfg : HandlerConfig) (st : HandlerState)
    (req : PwRequest) (h : abortsRequest cfg req = false) :
    ∃ ov : RouteOverrides,
      (_request_handler cfg st req).fst = RouteAction.continue_ ov ∧
      ov.headers = cfg.process_request_headers cfg.browser_type req st.scrapy_headers ∧
      (req.is_navigation_request = true →
        ov.method = some cfg.method ∧
        ov.post_data = cfg.body.map (fun b => cfg.decodeBody b cfg.encoding)) ∧
      (req.is_navigation_request = false →
        ov.method = none ∧ ov.post_data = none) := by
  refine ⟨{ headers := cfg.process_request_headers cfg.browser_type req st.scrapy_headers
            method := if req.is_navigation_request then some cfg.method else none
            post_data := if req.is_navigation_request then
                cfg.body.map (fun b => cfg.decodeBody b cfg.encoding)
              else none },
          by simp [_request_handler, h], rfl, ?_, ?_⟩ <;>
    intro hnav <;> simp [hnav]

/-- Witness for continue_with_overrides at the concrete non-aborted
navigation request (the abort predicate is configured but returns
false there). -/
theorem continue_with_overrides_witness :
    abortsRequest sampleHandlerConfig sampleNavRequest = false ∧
    ∃ ov : RouteOverrides,
      (_request_handler sampleHandlerConfig sampleHandlerState
          sampleNavRequest).fst = RouteAction.continue_ ov ∧
      ov.headers = sampleProcessHeaders "chromium" sampleNavRequest
          [("User-Agent", "scrapy")] ∧
      (sampleNavRequest.is_navigation_request = true →
        ov.method = some "POST" ∧
        ov.post_data = (some [104, 105]).map
          (fun b => (sampleDecode "utf-8" b).getD "")) ∧
      (sampleNavRequest.is_navigation_request = false →
        ov.method = none ∧ ov.post_data = none) :=
  ⟨rfl, continue_with_overrides sampleHandlerConfig sampleHandlerState
    sampleNavRequest rfl⟩

/-- Claim C8: for a non-aborted intercepted request the original
outbound header object is mutated in place (cleared, then updated) to
equal exactly the processed header set, while the aborted counter is
untouched. -/
theorem headers_mutated_in_place (cfg : HandlerConfig) (st : HandlerState)
    (req : PwRequest) (h : abortsRequest cfg req = false) :
    (_request_handler cfg st req).snd.scrapy_headers
      = cfg.process_request_headers cfg.browser_type req st.scrapy_headers ∧
    (_request_handler cfg st req).snd.aborted_count = st.aborted_count := by
  simp [_request_handler, h]

/-- Witness for headers_mutated_in_place at the concrete non-aborted
navigation request. -/
theorem headers_mutated_in_place_witness :
    abortsRequest sampleHandlerConfig sampleNavRequest = false ∧
    (_request_handler sampleHandlerConfig sampleHandlerState
        sampleNavRequest).snd.scrapy_headers
      = [("X-Engine", "chromium-http://example.com/"), ("User-Agent", "scrapy")] ∧
    (_request_handler sampleHandlerConfig sampleHandlerState
        sampleNavRequest).snd.aborted_count = 3 :=
  ⟨rfl,
   (headers_mutated_in_place sampleHandlerConfig sampleHandlerState
      sampleNavRequest rfl).imp_left (fun hh => hh.trans rfl)⟩

/-- Claim C4: when the pipeline around the page raises after the tab
was acquired, the guard in _download_request closes the page unless it
is already closed (so its gate slot is released), increments the
closed-pages counter exactly when it did close it, and re-raises the
same error unchanged. -/
theorem pipeline_error_closes_page (pipeline : Except String String)
    (st : DownloadTryState) (e : String) (h : pipeline = Except.error e) :
    (_download_request_guard pipeline st).fst = Except.error e ∧
    (_download_request_guard pipeline st).snd.pageClosed = true ∧
    (_download_request_guard pipeline st).snd.statsPagesClosed
      = (if st.pageClosed then st.statsPagesClosed else st.statsPagesClosed + 1) := by
  subst h
  by_cases hc : st.pageClosed = true
  · simp [_download_request_guard, hc]
  · simp only [Bool.not_eq_true] at hc
    simp [_download_request_guard, hc]

/-- Witness for pipeline_error_closes_page: a failing pipeline with the
page still open. -/
theorem pipeline_error_closes_page_witness :
    (_download_request_guard (Except.error "navigation timeout")
        { pageClosed := false, statsPagesClosed := 0 }).fst
      = Except.error "navigation timeout" ∧
    (_download_request_guard (Except.error "navigation timeout")
        { pageClosed := false, statsPagesClosed := 0 }).snd.pageClosed = true ∧
    (_download_request_guard (Except.error "navigation timeout")
        { pageClosed := false, statsPagesClosed := 0 }).snd.statsPagesClosed
      = (if ({ pageClosed := false, statsPagesClosed := 0 } : DownloadTryState).pageClosed
         then 0 else 0 + 1) :=
  pipeline_error_closes_page (Except.error "navigation timeout")
    { pageClosed := false, statsPagesClosed := 0 } "navigation timeout" rfl

/-- Claim C9: on a successfully completed fetch the tab is closed (and
the closure counted) exactly when the keep-alive flag
(playwright_include_page) is false; when the flag is true the tab is
left open and its handle is stored into request.meta for the caller. -/
theorem keep_alive_controls_disposal (codecs : String → String → Option (List Nat))
    (httpCT htmlDecl : String → Option String)
    (playwright_include_page : Bool) (env : FetchEnv) (n : Nat) :
    (_download_request_with_page codecs httpCT htmlDecl
        playwright_include_page env n).pageClosed = !playwright_include_page ∧
    (_download_request_with_page codecs httpCT htmlDecl
        playwright_include_page env n).metaPage = playwright_include_page ∧
    (_download_request_with_page codecs httpCT htmlDecl
        playwright_include_page env n).statsPagesClosed
      = (if playwright_include_page then n else n + 1) := by
  cases playwright_include_page <;>
    simp [_download_request_with_page]

/-- Claim C6: in the scripted-action loop an entry whose named
capability does not resolve on the page is skipped with a warning and
is non-fatal: the loop processes every entry independently of the
others (so all subsequent actions still execute and the response is
still produced), a skipped entry keeps its result slot unchanged, an
executed entry gets its result slot filled, the warning count is the
number of skipped entries, and a mapping input is treated as its
ordered values. -/
theorem unresolvable_action_skipped
    (resolve : String → Option (List String → String))
    (input : PageMethodsInput) :
    (_apply_page_methods resolve input).fst
      = (pageMethodsValues input).map (fun e => (applyPageMethod resolve e).fst) ∧
    (_apply_page_methods resolve input).snd.fst
      = ((pageMethodsValues input).filter (entrySkipped resolve)).length ∧
    (∀ p : PageMethod, resolve p.method = none →
      (applyPageMethod resolve (PMEntry.pm p)).fst = PMEntry.pm p) ∧
    (∀ (p : PageMethod) (f : List String → String), resolve p.method = some f →
      (applyPageMethod resolve (PMEntry.pm p)).fst
        = PMEntry.pm { p with result := some (f p.args) }) ∧
    (∀ d : List (String × PMEntry),
      _apply_page_methods resolve (PageMethodsInput.dict d)
        = _apply_page_methods resolve (PageMethodsInput.list (d.map Prod.snd))) := by
  refine ⟨?_, ?_, ?_, ?_, fun d => rfl⟩
  · show (applyPageMethodsList resolve (pageMethodsValues input)).fst = _
    induction pageMethodsValues input with
    | nil => rfl
    | cons e rest ih => simp [applyPageMethodsList, ih]
  · show (applyPageMethodsList resolve (pageMethodsValues input)).snd.fst = _
    induction pageMethodsValues input with
    | nil => rfl
    | cons e rest ih =>
      cases e with
      | pm p =>
        cases hr : resolve p.method with
        | none =>
          simp [applyPageMethodsList, applyPageMethod, entrySkipped, hr, ih]
          omega
        | some f =>
          simp [applyPageMethodsList, applyPageMethod, entrySkipped, hr, ih]
      | other =>
        simp [applyPageMethodsList, applyPageMethod, entrySkipped, ih]
        omega
  · intro p hp
    simp [applyPageMethod, hp]
  · intro p f hf
    simp [applyPageMethod, hf]

/-- Concrete page capabilities for the witness: only the click method
resolves. -/
def sampleResolve (name : String) : Option (List String → String) :=
  if name = "click" then some (fun _ => "clicked") else none

/-- Concrete scripted action with an unknown capability name. -/
def samplePMBad : PageMethod :=
  { method := "no_such_method", args := [], result := none }

/-- Concrete scripted action that resolves and executes. -/
def samplePMGood : PageMethod :=
  { method := "click", args := ["#button"], result := none }

/-- Concrete scripted-action list: the unresolvable entry first, a
resolvable one after it. -/
def samplePageMethods : PageMethodsInput :=
  PageMethodsInput.list [PMEntry.pm samplePMBad, PMEntry.pm samplePMGood]

/-- Witness for unresolvable_action_skipped: the first entry is
skipped with one warning, the second still executes and its result
slot is filled. -/
theorem unresolvable_action_skipped_witness :
    (_apply_page_methods sampleResolve samplePageMethods).fst
      = [PMEntry.pm samplePMBad,
         PMEntry.pm { samplePMGood with result := some "clicked" }] ∧
    (_apply_page_methods sampleResolve samplePageMethods).snd.fst = 1 :=
  have h := unresolvable_action_skipped sampleResolve samplePageMethods
  ⟨h.1.trans rfl, h.2.1.trans rfl⟩

/-- Claim C1: the claim fails on the code.  The releasing callback is
registered for both the close and the crash event of one page, so a
page that crashes (first release) and is then closed by the error
guard (second release, the page not being is_closed() after a crash)
releases the gate twice for a single acquire.  Concretely, with cap 1,
one crash-then-close drives the semaphore value to 2, and two further
page creations then make two tabs open simultaneously: the gate is not
released exactly once, the gate value plus the open tabs does not stay
at the cap, and the cap on simultaneously open tabs is exceeded. -/
theorem session_gate_double_release :
    SessionReachable 1 ⟨2, 0, 0⟩ ∧
    1 < (⟨2, 0, 0⟩ : SessionState).sem ∧
    SessionReachable 1 ⟨0, 2, 0⟩ ∧
    1 < (⟨0, 2, 0⟩ : SessionState).openPages ∧
    (⟨0, 2, 0⟩ : SessionState).sem + (⟨0, 2, 0⟩ : SessionState).openPages ≠ 1 := by
  have h1 : SessionReachable 1 ⟨0, 1, 0⟩ :=
    SessionReachable.step SessionReachable.init
      (SessionStep.createPage ⟨1, 0, 0⟩ (by decide))
  have h2 : SessionReachable 1 ⟨1, 0, 1⟩ :=
    SessionReachable.step h1 (SessionStep.crashPage ⟨0, 1, 0⟩ (by decide))
  have h3 : SessionReachable 1 ⟨2, 0, 0⟩ :=
    SessionReachable.step h2 (SessionStep.closeCrashedPage ⟨1, 0, 1⟩ (by decide))
  have h4 : SessionReachable 1 ⟨1, 1, 0⟩ :=
    SessionReachable.step h3 (SessionStep.createPage ⟨2, 0, 0⟩ (by decide))
  have h5 : SessionReachable 1 ⟨0, 2, 0⟩ :=
    SessionReachable.step h4 (SessionStep.createPage ⟨1, 1, 0⟩ (by decide))
  exact ⟨h3, by decide, h5, by decide, by decide⟩
